import Mathlib

/-!
Verification development for the MintFlow authenticated API client and
resilience layer.

The definitions below are a shallow embedding of the TypeScript sources:
  * `mobile/src/services/api.ts` (`ApiClient`: `getAuthHeaders`,
    `handleResponse`, `handleTokenExpiration`, the HTTP verb methods),
  * `mobile/src/utils/errorHandler.ts` (`ErrorHandler.handleApiError`,
    `handleNetworkError`, `handleGenericError`, `shouldRetry`, and the
    `useErrorHandler` dispatch), and
  * the `QueryClient` retry configuration shared by `mobile/src/App.tsx`
    and `frontend/web/src/App.tsx`.

Conventions of the embedding:
  * `AsyncStorage` is modelled as a record of the three keys the client
    touches (`access_token`, `refresh_token`, `user`); `getItem` returning
    `null` is `Option.none`.  Storage reads/writes in the model never fail
    (the `catch` fallbacks of the source that fire only on storage faults
    are noted where they matter).
  * JavaScript promises that can reject are modelled with `Except`.
  * JavaScript truthiness on the strings the code tests with `||` is
    modelled by treating the empty string like `undefined`.
  * Network behaviour (what `fetch` resolves to) is an explicit input of
    each function, so the functions stay pure and executable.
-/

namespace MintFlow

/-- `ErrorType` enum from `errorHandler.ts`. -/
inductive ErrorType where
  | NETWORK
  | AUTH
  | VALIDATION
  | SERVER
  | UNKNOWN
deriving DecidableEq, Repr

/-- `ApiError` interface from `api.ts`: the shape `handleResponse` throws. -/
structure ApiError where
  message : String
  status : Nat
  code : Option String
deriving DecidableEq, Repr

/-- `AppError` from `errorHandler.ts`.  `originalStatus` models
`originalError?.status` (the only field of `originalError` the code ever
reads, in `shouldRetry`); `timestamp` models `new Date()` as a tick supplied
by the caller. -/
structure AppError where
  type : ErrorType
  message : String
  code : Option String
  originalStatus : Option Nat
  timestamp : Nat
deriving DecidableEq, Repr

/-- JavaScript `a || d` on an optional string: `undefined` and the empty
string both fall through to the default. -/
def orFalsy (s : Option String) (d : String) : String :=
  match s with
  | some m => if m = "" then d else m
  | none => d

/-- `ErrorHandler.handleApiError` (`errorHandler.ts` lines 21-67): the
`switch (error.status)` with cases 400/401/403/404/429/500 and a default
that sends `status >= 500` to SERVER and everything else to UNKNOWN. -/
def handleApiError (now : Nat) (error : ApiError) : AppError :=
  if error.status == 400 then
    { type := .VALIDATION,
      message := orFalsy (some error.message) "Invalid request. Please check your input.",
      code := error.code, originalStatus := some error.status, timestamp := now }
  else if error.status == 401 then
    { type := .AUTH, message := "Session expired. Please log in again.",
      code := error.code, originalStatus := some error.status, timestamp := now }
  else if error.status == 403 then
    { type := .AUTH, message := "Access denied. You don\x27t have permission for this action.",
      code := error.code, originalStatus := some error.status, timestamp := now }
  else if error.status == 404 then
    { type := .SERVER, message := "The requested resource was not found.",
      code := error.code, originalStatus := some error.status, timestamp := now }
  else if error.status == 429 then
    { type := .SERVER, message := "Too many requests. Please try again later.",
      code := error.code, originalStatus := some error.status, timestamp := now }
  else if error.status == 500 then
    { type := .SERVER, message := "Server error. Please try again later.",
      code := error.code, originalStatus := some error.status, timestamp := now }
  else if 500 ≤ error.status then
    { type := .SERVER, message := "Server error. Please try again later.",
      code := error.code, originalStatus := some error.status, timestamp := now }
  else
    { type := .UNKNOWN,
      message := orFalsy (some error.message) "An unexpected error occurred.",
      code := error.code, originalStatus := some error.status, timestamp := now }

/-- `ErrorHandler.handleNetworkError` (`errorHandler.ts` lines 69-76).  The
wrapped transport error carries no HTTP status, so `originalStatus` is
`none`. -/
def handleNetworkError (now : Nat) : AppError :=
  { type := .NETWORK, message := "Network error. Please check your internet connection.",
    code := none, originalStatus := none, timestamp := now }

/-- `ErrorHandler.shouldRetry` (`errorHandler.ts` lines 179-188): retry only
below the hard-coded `maxRetries = 3`, and only NETWORK errors or SERVER
errors whose original HTTP status is `>= 500` (JavaScript
`undefined >= 500` is false, hence the `none` branch). -/
def shouldRetry (error : AppError) (retryCount : Nat) : Bool :=
  let maxRetries := 3
  if maxRetries ≤ retryCount then
    false
  else
    error.type == .NETWORK ||
      (error.type == .SERVER &&
        (match error.originalStatus with
         | some s => decide (500 ≤ s)
         | none => false))

/-! ### ApiClient (`api.ts`) -/

/-- The slice of `AsyncStorage` the client touches: the keys
`access_token`, `refresh_token` and `user`.  `getItem` returning `null`
is `none`. -/
structure Storage where
  access_token : Option String
  refresh_token : Option String
  user : Option String
deriving DecidableEq, Repr

/-- The fields of a parsed JSON response body that the client ever reads
(`data.message` and `data.code`); absent fields are `none`. -/
structure JsonLite where
  message : Option String
  code : Option String
deriving DecidableEq, Repr

/-- The `data` local of `handleResponse`: either a parsed JSON object or
the raw text of a non-JSON body.  Reading `.message` / `.code` off a string
yields `undefined`, i.e. `none`. -/
inductive DataValue where
  | json (j : JsonLite)
  | str (s : String)
deriving DecidableEq, Repr

/-- `data.message` as JavaScript evaluates it. -/
def dataMessage : DataValue → Option String
  | .json j => j.message
  | .str _ => none

/-- `data.code` as JavaScript evaluates it. -/
def dataCode : DataValue → Option String
  | .json j => j.code
  | .str _ => none

/-- What a rejected promise escaping `handleResponse` carries: either the
`ApiError` object the method `throw`s, or the `SyntaxError` raised by
`response.json()` on an unparsable body (we keep only its message). -/
inductive RawError where
  | api (e : ApiError)
  | jsonParse (message : String)
deriving DecidableEq, Repr

/-- `ApiResponse` from `api.ts`: what `handleResponse` resolves with. -/
structure ApiResponseModel where
  data : DataValue
  message : Option String
  status : Nat
deriving DecidableEq, Repr

/-- A `fetch` `Response` as `handleResponse` consumes it:
`contentTypeJson` is whether the `content-type` header is present and
contains `application/json`; `bodyJson` is `some` of the parsed object when
`response.json()` would succeed and `none` when it would reject;
`bodyText` is what `response.text()` returns. -/
structure HttpResponse where
  ok : Bool
  status : Nat
  contentTypeJson : Bool
  bodyText : String
  bodyJson : Option JsonLite
deriving DecidableEq, Repr

/-- Lines 126-133 of `handleResponse`: read the body as JSON when the
content type says JSON, otherwise as text.  A rejection of
`response.json()` raises a `SyntaxError`; its engine-dependent message is
modelled by a fixed representative string (the theorems that rely on its
classification quantify over the message, so nothing depends on the exact
wording). -/
def readData (response : HttpResponse) : Except RawError DataValue :=
  if response.contentTypeJson then
    match response.bodyJson with
    | some j => .ok (.json j)
    | none => .error (.jsonParse "Unexpected token in JSON")
  else
    .ok (.str response.bodyText)

/-- What the single `fetch` of `${baseURL}/api/v1/auth/refresh` inside
`handleTokenExpiration` comes back as:
  * `ok access rotated`: `response.ok` with body `{access_token, refresh_token?}`
    (a falsy/absent rotated token is `none`, skipping the second `setItem`);
  * `httpError status`: a non-`ok` response;
  * `throws`: the `fetch` (or the body read / `setItem`) rejected, landing
    in the `catch` block. -/
inductive RefreshOutcome where
  | ok (access : String) (rotated : Option String)
  | httpError (status : Nat)
  | throws
deriving DecidableEq, Repr

/-- `ApiClient.handleTokenExpiration` (`api.ts` lines 157-183), as a
function of the stored credentials and of the refresh endpoint's behaviour.
Returns the storage afterwards and the number of network calls made to the
refresh endpoint.  With no stored `refresh_token` the `if` body is skipped:
no call, no mutation.  On a non-`ok` refresh response, and equally in the
`catch` block, `AsyncStorage.multiRemove(['access_token', 'refresh_token',
'user'])` empties all three keys. -/
def handleTokenExpiration (store : Storage) (outcome : RefreshOutcome) : Storage × Nat :=
  match store.refresh_token with
  | none => (store, 0)
  | some _ =>
    match outcome with
    | .ok access rotated =>
        ({ store with
            access_token := some access,
            refresh_token := match rotated with | some r => some r | none => store.refresh_token },
         1)
    | .httpError _ => ({ access_token := none, refresh_token := none, user := none }, 1)
    | .throws => ({ access_token := none, refresh_token := none, user := none }, 1)

/-- `ApiClient.handleResponse` (`api.ts` lines 125-155).  Reads the body
first; on a non-`ok` status builds the `ApiError`, runs
`handleTokenExpiration` when the status is 401 (its own `try`/`catch`
means it never throws), and then `throw`s the `ApiError` regardless of the
refresh outcome; on an `ok` status resolves with the `ApiResponse`.
Returns the result together with the storage afterwards and the number of
refresh-endpoint network calls. -/
def handleResponse (store : Storage) (refreshOutcome : RefreshOutcome)
    (response : HttpResponse) : Except RawError ApiResponseModel × Storage × Nat :=
  match readData response with
  | .error e => (.error e, store, 0)
  | .ok data =>
    if !response.ok then
      let error : ApiError :=
        { message := orFalsy (dataMessage data) ("HTTP error! status: " ++ toString response.status),
          status := response.status,
          code := dataCode data }
      if response.status == 401 then
        let after := handleTokenExpiration store refreshOutcome
        (.error (.api error), after.1, after.2)
      else
        (.error (.api error), store, 0)
    else
      (.ok { data := data, message := dataMessage data, status := response.status }, store, 0)

/-- `defaultHeaders` set in the `ApiClient` constructor. -/
def defaultHeaders : List (String × String) :=
  [("Content-Type", "application/json"), ("Accept", "application/json")]

/-- `ApiClient.getAuthHeaders` (`api.ts` lines 109-123): spread the default
headers and add `Authorization: Bearer <token>` exactly when
`AsyncStorage.getItem('access_token')` is non-null.  (The `catch` branch,
reachable only on a storage fault, also returns the bare
`defaultHeaders`.) -/
def getAuthHeaders (store : Storage) : List (String × String) :=
  match store.access_token with
  | some token => defaultHeaders ++ [("Authorization", "Bearer " ++ token)]
  | none => defaultHeaders

/-- The value of the `Authorization` key among headers, if any. -/
def authHeaderValue (headers : List (String × String)) : Option String :=
  (headers.find? (fun p => p.1 == "Authorization")).map (fun p => p.2)

/-- The network environment one call of `ApiClient.get` runs against:
the response the single `fetch(url, {method: 'GET', headers})` resolves to,
and how the refresh endpoint would answer if called. -/
structure ServerEnv where
  firstResponse : HttpResponse
  refreshOutcome : RefreshOutcome
deriving Repr

/-- Everything observable about one `ApiClient.get` call: its result, the
storage afterwards, the headers it sent, and how many times the original
request and the refresh endpoint were hit on the network. -/
structure ExecResult where
  result : Except RawError ApiResponseModel
  finalStore : Storage
  sentHeaders : List (String × String)
  requestSends : Nat
  refreshCalls : Nat
deriving Repr

/-- `ApiClient.get` (`api.ts` lines 185-205): build headers with
`getAuthHeaders`, `fetch` the URL exactly once, delegate to
`handleResponse`.  `requestSends := 1` because the method body contains a
single `fetch` of the request URL and `handleResponse` never re-sends the
original request (its only `fetch` is the refresh endpoint, counted
separately in `refreshCalls`). -/
def getMethod (store : Storage) (env : ServerEnv) : ExecResult :=
  let headers := getAuthHeaders store
  let r := handleResponse store env.refreshOutcome env.firstResponse
  { result := r.1, finalStore := r.2.1, sentHeaders := headers,
    requestSends := 1, refreshCalls := r.2.2 }

/-! ### The `useErrorHandler` dispatch (`errorHandler.ts` lines 192-209)
and the remaining classifier pieces. -/

/-- JavaScript `String.prototype.includes`. -/
def strIncludes (s pat : String) : Bool :=
  decide (pat.toList <:+: s.toList)

/-- The `message` property of a raw thrown value. -/
def rawMessage : RawError → String
  | .api e => e.message
  | .jsonParse m => m

/-- `ErrorHandler.isNetworkError` (`errorHandler.ts` lines 166-171) applied
to a raw thrown value: such a value has no `type` field (so the first
disjunct is false) and the check falls back to message sniffing. -/
def isNetworkErrorRaw (e : RawError) : Bool :=
  strIncludes (rawMessage e) "Network" ||
    strIncludes (rawMessage e) "timeout" ||
    strIncludes (rawMessage e) "connection"

/-- `ErrorHandler.handleGenericError` (`errorHandler.ts` lines 78-85):
wrap anything else as UNKNOWN; `originalError` keeps the raw value, so
`originalStatus` is the raw value's `status` field when it has one. -/
def handleGenericError (now : Nat) (e : RawError) : AppError :=
  { type := .UNKNOWN,
    message := orFalsy (some (rawMessage e)) "An unexpected error occurred.",
    code := none,
    originalStatus := match e with | .api a => some a.status | .jsonParse _ => none,
    timestamp := now }

/-- The `handleError` closure of `useErrorHandler` (`errorHandler.ts`
lines 193-209): a truthy `status` field routes to `handleApiError`, else a
message that smells like a network problem routes to `handleNetworkError`,
else `handleGenericError`. -/
def handleError (now : Nat) (e : RawError) : AppError :=
  match e with
  | .api a =>
      if a.status != 0 then handleApiError now a
      else if isNetworkErrorRaw e then handleNetworkError now
      else handleGenericError now e
  | .jsonParse _ =>
      if isNetworkErrorRaw e then handleNetworkError now
      else handleGenericError now e

/-! ### Concurrent 401 handling

The client has no refresh coordinator: every caller whose response is 401
runs `handleTokenExpiration` itself.  `run401s` executes the handlers of
`outcomes.length` such callers one after the other (full serialization is
the schedule most favourable to deduplication: under any true interleaving
each handler still reads `refresh_token` before any other handler could
remove it, so it can only make *more* refresh calls, never fewer).  Returns
the final storage and the total count of refresh-endpoint network calls. -/

def run401s (store : Storage) : List RefreshOutcome → Storage × Nat
  | [] => (store, 0)
  | o :: rest =>
    let first := handleTokenExpiration store o
    let next := run401s first.1 rest
    (next.1, first.2 + next.2)

/-- Whether a refresh outcome is a success (`response.ok`). -/
def refreshSucceeds : RefreshOutcome → Bool
  | .ok _ _ => true
  | .httpError _ => false
  | .throws => false

/-! ### Query-layer retry configuration

Both `mobile/src/App.tsx` (lines 242-255) and `frontend/web/src/App.tsx`
(lines 42-55) construct the react-query `QueryClient` with
`queries: {retry: 3, ...}` and `mutations: {retry: 1}`.  A numeric `retry`
option in react-query means: when an attempt fails — whatever the error
is — retry, until `retry` retries have been used; the error value is never
consulted.  `runQuery` is that retry driver; `attempt k` is the outcome of
the k-th attempt (0-based), and the driver returns the final outcome
together with the total number of attempts made. -/

/-- `queries.retry` from the `QueryClient` configuration. -/
def queriesRetry : Nat := 3

/-- `mutations.retry` from the `QueryClient` configuration. -/
def mutationsRetry : Nat := 1

/-- react-query's numeric-`retry` driver (see the section comment):
run attempts until one succeeds or `retriesLeft` is exhausted, counting
attempts. -/
def runQuery {α : Type} (attempt : Nat → Except AppError α) :
    Nat → Nat → Except AppError α × Nat
  | k, 0 => (attempt k, 1)
  | k, n + 1 =>
    match attempt k with
    | .ok v => (.ok v, 1)
    | .error _ =>
      let r := runQuery attempt (k + 1) n
      (r.1, r.2 + 1)

/-! ### Specification-side mappings (for the refinement comparison of the
error taxonomy) -/

/-- The status-to-kind mapping exactly as the specification words it:
400 to ValidationError, 401/403 to AuthError, 404/429 and every status in
500-599 to ServerError, any other status to UnknownError. -/
def specStatusKind (status : Nat) : ErrorType :=
  if status = 400 then .VALIDATION
  else if status = 401 ∨ status = 403 then .AUTH
  else if status = 404 ∨ status = 429 ∨ (500 ≤ status ∧ status ≤ 599) then .SERVER
  else .UNKNOWN

/-- The amended mapping: as `specStatusKind`, except that *every* status
from 500 upwards (not only 500-599) is a ServerError, which is what the
`default` branch of `handleApiError` actually does. -/
def specStatusKindAmended (status : Nat) : ErrorType :=
  if status = 400 then .VALIDATION
  else if status = 401 ∨ status = 403 then .AUTH
  else if status = 404 ∨ status = 429 ∨ 500 ≤ status then .SERVER
  else .UNKNOWN

/-! ### Helper lemmas -/

lemma handleApiError_type (now : Nat) (e : ApiError) :
    (handleApiError now e).type = specStatusKindAmended e.status := by
  unfold handleApiError specStatusKindAmended
  split_ifs
  all_goals simp_all
  all_goals omega

lemma handleApiError_originalStatus (now : Nat) (e : ApiError) :
    (handleApiError now e).originalStatus = some e.status := by
  unfold handleApiError
  split_ifs
  all_goals rfl

lemma shouldRetry_of_auth (e : AppError) (n : Nat) (h : e.type = ErrorType.AUTH) :
    shouldRetry e n = false := by
  unfold shouldRetry
  rw [h]
  simp

lemma shouldRetry_of_server_lt500 (e : AppError) (n s : Nat)
    (h : e.type = ErrorType.SERVER) (ho : e.originalStatus = some s) (hs : s < 500) :
    shouldRetry e n = false := by
  unfold shouldRetry
  rw [h, ho]
  have h5 : ¬ (500 ≤ s) := by omega
  simp [h5]

lemma handleTokenExpiration_none (store : Storage) (o : RefreshOutcome)
    (h : store.refresh_token = none) :
    handleTokenExpiration store o = (store, 0) := by
  unfold handleTokenExpiration
  rw [h]

lemma handleTokenExpiration_failure (store : Storage) (o : RefreshOutcome) (r : String)
    (hr : store.refresh_token = some r) (hf : refreshSucceeds o = false) :
    handleTokenExpiration store o =
      ({ access_token := none, refresh_token := none, user := none }, 1) := by
  unfold handleTokenExpiration
  rw [hr]
  cases o with
  | ok a ro => simp [refreshSucceeds] at hf
  | httpError s => rfl
  | throws => rfl

lemma handleTokenExpiration_success (store : Storage) (a : String) (ro : Option String)
    (r : String) (hr : store.refresh_token = some r) :
    handleTokenExpiration store (.ok a ro) =
      ({ store with
          access_token := some a,
          refresh_token := match ro with | some x => some x | none => store.refresh_token },
       1) := by
  unfold handleTokenExpiration
  rw [hr]

lemma handleResponse_failure (store : Storage) (o : RefreshOutcome) (resp : HttpResponse)
    (d : DataValue) (hbody : readData resp = .ok d) (hok : resp.ok = false)
    (h401 : resp.status = 401) :
    handleResponse store o resp =
      (.error (.api
        { message := orFalsy (dataMessage d) ("HTTP error! status: " ++ toString resp.status),
          status := resp.status, code := dataCode d }),
       (handleTokenExpiration store o).1, (handleTokenExpiration store o).2) := by
  unfold handleResponse
  rw [hbody]
  simp [hok, h401]

lemma runQuery_le {α : Type} (attempt : Nat → Except AppError α) (k n : Nat) :
    (runQuery attempt k n).2 ≤ n + 1 := by
  induction n generalizing k with
  | zero => simp [runQuery]
  | succ m ih =>
    unfold runQuery
    cases h : attempt k with
    | ok v => simp
    | error e =>
      simp only []
      have := ih (k + 1)
      omega

lemma runQuery_allFail {α : Type} (e : AppError) (k n : Nat) :
    (runQuery (fun _ => (.error e : Except AppError α)) k n).2 = n + 1 := by
  induction n generalizing k with
  | zero => simp [runQuery]
  | succ m ih =>
    unfold runQuery
    simp only []
    rw [ih (k + 1)]

instance {ε α : Type} [DecidableEq ε] [DecidableEq α] : DecidableEq (Except ε α) := fun x y =>
  match x, y with
  | .ok a, .ok b =>
    match decEq a b with
    | isTrue h => isTrue (h ▸ rfl)
    | isFalse h => isFalse (fun hc => h (Except.ok.inj hc))
  | .error a, .error b =>
    match decEq a b with
    | isTrue h => isTrue (h ▸ rfl)
    | isFalse h => isFalse (fun hc => h (Except.error.inj hc))
  | .ok _, .error _ => isFalse (fun hc => Except.noConfusion hc)
  | .error _, .ok _ => isFalse (fun hc => Except.noConfusion hc)

/-! ### Concrete inputs used by counterexamples and witnesses -/

/-- A storage with both tokens present. -/
def cexStore : Storage :=
  { access_token := some "T1", refresh_token := some "R1", user := none }

/-- A 401 response with a well-formed (empty) JSON body. -/
def cex401 : HttpResponse :=
  { ok := false, status := 401, contentTypeJson := true, bodyText := "",
    bodyJson := some { message := none, code := none } }

/-- Environment where the request gets 401 and the refresh endpoint
succeeds with a new access token T2. -/
def cexEnvRefreshOk : ServerEnv :=
  { firstResponse := cex401, refreshOutcome := .ok "T2" none }

/-- Environment where the request gets 401 and the refresh endpoint itself
answers 401. -/
def cexEnvRefreshFail : ServerEnv :=
  { firstResponse := cex401, refreshOutcome := .httpError 401 }

/-- A storage holding an access token but no refresh token. -/
def cexNoRefreshStore : Storage :=
  { access_token := some "T1", refresh_token := none, user := some "u" }

/-- A 200 response declaring JSON whose body does not parse. -/
def cexMalformed : HttpResponse :=
  { ok := true, status := 200, contentTypeJson := true, bodyText := "not json",
    bodyJson := none }

/-- The classified error of a 400 failure. -/
def err400 : AppError :=
  handleApiError 0 { message := "Bad request", status := 400, code := none }

/-! ### Claim theorems -/

/-- C1, counterexample.  In the spec's own scenario (401, refresh succeeds
with T2), the code stores T2 but sends the original request only once and
the caller still receives the 401 error — not the success the claim
promises from a second attempt. -/
theorem get_401_refresh_success_caller_still_errors :
    (getMethod cexStore cexEnvRefreshOk).requestSends = 1 ∧
    (getMethod cexStore cexEnvRefreshOk).refreshCalls = 1 ∧
    (getMethod cexStore cexEnvRefreshOk).finalStore.access_token = some "T2" ∧
    (getMethod cexStore cexEnvRefreshOk).result =
      .error (.api { message := "HTTP error! status: 401", status := 401, code := none }) := by
  decide

/-- C1, amended.  For every authenticated request that receives a 401 and
whose token refresh succeeds, the client stores the new access token for
future requests but does NOT rebuild and resend the original request: it
is sent exactly once, and the caller's final outcome is the original
classified 401 error. -/
theorem get_401_no_resend (store : Storage) (env : ServerEnv) (a r : String)
    (ro : Option String) (d : DataValue)
    (hbody : readData env.firstResponse = .ok d)
    (hok : env.firstResponse.ok = false)
    (h401 : env.firstResponse.status = 401)
    (href : store.refresh_token = some r)
    (hsucc : env.refreshOutcome = .ok a ro) :
    (getMethod store env).requestSends = 1 ∧
    (getMethod store env).refreshCalls = 1 ∧
    (getMethod store env).finalStore.access_token = some a ∧
    ∃ e, (getMethod store env).result = .error (.api e) ∧ e.status = 401 := by
  have hresp := handleResponse_failure store env.refreshOutcome env.firstResponse d hbody hok h401
  have hte := handleTokenExpiration_success store a ro r href
  refine ⟨rfl, ?_, ?_, ?_⟩
  · show (handleResponse store env.refreshOutcome env.firstResponse).2.2 = 1
    rw [hresp, hsucc, hte]
  · show (handleResponse store env.refreshOutcome env.firstResponse).2.1.access_token = some a
    rw [hresp, hsucc, hte]
  · refine ⟨{ message := orFalsy (dataMessage d) ("HTTP error! status: " ++ toString env.firstResponse.status),
              status := env.firstResponse.status, code := dataCode d }, ?_, h401⟩
    show (handleResponse store env.refreshOutcome env.firstResponse).1 = _
    rw [hresp]

/-- C1, witness for the amended theorem at the concrete scenario. -/
theorem get_401_no_resend_witness :
    (getMethod cexStore cexEnvRefreshOk).requestSends = 1 ∧
    (getMethod cexStore cexEnvRefreshOk).refreshCalls = 1 ∧
    (getMethod cexStore cexEnvRefreshOk).finalStore.access_token = some "T2" ∧
    ∃ e, (getMethod cexStore cexEnvRefreshOk).result = .error (.api e) ∧ e.status = 401 :=
  get_401_no_resend cexStore cexEnvRefreshOk "T2" "R1" none
    (.json { message := none, code := none }) rfl rfl rfl rfl rfl

/-- C2, counterexample.  Two callers that each receive a 401 while a
refresh token is stored make two refresh-endpoint network calls, not at
most one: the client has no single-flight coordinator. -/
theorem two_401_callers_two_refresh_calls :
    ¬ (run401s cexStore [.ok "T2" none, .ok "T3" none]).2 ≤ 1 := by
  decide

/-- C2, amended.  Every caller that receives a 401 while a refresh token is
stored issues its own refresh network call: N callers whose refreshes
succeed produce exactly N refresh calls (shown under the serialized
schedule, which is the one most favourable to deduplication). -/
theorem run401s_refresh_call_per_caller (store : Storage) (outs : List RefreshOutcome)
    (htok : store.refresh_token.isSome = true)
    (hall : ∀ o ∈ outs, refreshSucceeds o = true) :
    (run401s store outs).2 = outs.length := by
  induction outs generalizing store with
  | nil => rfl
  | cons o rest ih =>
    obtain ⟨r, hr⟩ := Option.isSome_iff_exists.mp htok
    have ho := hall o (List.mem_cons_self o rest)
    cases o with
    | httpError s => simp [refreshSucceeds] at ho
    | throws => simp [refreshSucceeds] at ho
    | ok a ro =>
      have hte := handleTokenExpiration_success store a ro r hr
      have hkeep : (handleTokenExpiration store (.ok a ro)).1.refresh_token.isSome = true := by
        rw [hte]
        cases ro <;> simp [hr]
      have hrest : ∀ o2 ∈ rest, refreshSucceeds o2 = true :=
        fun o2 h2 => hall o2 (List.mem_cons_of_mem _ h2)
      have hrec := ih (handleTokenExpiration store (.ok a ro)).1 hkeep hrest
      simp only [run401s]
      rw [hrec, hte]
      simp [Nat.add_comm]

/-- C2, witness: two successful refreshers over a store with a refresh
token give two refresh calls. -/
theorem run401s_refresh_call_per_caller_witness :
    (run401s cexStore [.ok "T2" none, .ok "T3" none]).2 = 2 :=
  run401s_refresh_call_per_caller cexStore [.ok "T2" none, .ok "T3" none] rfl
    (by intro o ho; fin_cases ho <;> rfl)

/-- C3, counterexample.  A 429 failure is classified SERVER, yet
`shouldRetry` returns false for it even at attempt count 0 (it requires an
original status of at least 500), contradicting the claimed
`retryable = true`. -/
theorem status429_not_retried :
    (handleApiError 0 { message := "", status := 429, code := none }).type = ErrorType.SERVER ∧
    shouldRetry (handleApiError 0 { message := "", status := 429, code := none }) 0 = false := by
  decide

/-- C3, amended.  A 429 failure is classified as a ServerError, but the
retry decision `shouldRetry` returns false for it at every attempt count:
only NETWORK errors and SERVER errors with original status at least 500
are retried. -/
theorem handleApiError_429_not_retryable (now n : Nat) (e : ApiError) (h : e.status = 429) :
    (handleApiError now e).type = ErrorType.SERVER ∧
    shouldRetry (handleApiError now e) n = false := by
  have ht : (handleApiError now e).type = ErrorType.SERVER := by
    rw [handleApiError_type, h]
    decide
  refine ⟨ht, ?_⟩
  exact shouldRetry_of_server_lt500 _ n 429 ht
    (by rw [handleApiError_originalStatus, h]) (by omega)

/-- C3, witness for the amended theorem at a concrete 429 error. -/
theorem handleApiError_429_not_retryable_witness :
    (handleApiError 5 { message := "slow down", status := 429, code := some "RATE" }).type
        = ErrorType.SERVER ∧
    shouldRetry (handleApiError 5 { message := "slow down", status := 429, code := some "RATE" }) 2
        = false :=
  handleApiError_429_not_retryable 5 2 { message := "slow down", status := 429, code := some "RATE" } rfl

/-- C4, confirmed.  When a 401 is handled with a stored refresh token and
the refresh attempt fails (non-ok response or a throw), the credential
store is emptied (access token, refresh token, and user all removed),
exactly one refresh call was made, and the caller receives the 401 error,
which classifies as AUTH and is never retryable. -/
theorem refresh_failure_clears_store_auth_terminal
    (store : Storage) (env : ServerEnv) (r : String) (d : DataValue) (now n : Nat)
    (hbody : readData env.firstResponse = .ok d)
    (hok : env.firstResponse.ok = false)
    (h401 : env.firstResponse.status = 401)
    (href : store.refresh_token = some r)
    (hfail : refreshSucceeds env.refreshOutcome = false) :
    (getMethod store env).finalStore =
      { access_token := none, refresh_token := none, user := none } ∧
    (getMethod store env).refreshCalls = 1 ∧
    ∃ e, (getMethod store env).result = .error (.api e) ∧ e.status = 401 ∧
      (handleApiError now e).type = ErrorType.AUTH ∧
      shouldRetry (handleApiError now e) n = false := by
  have hresp := handleResponse_failure store env.refreshOutcome env.firstResponse d hbody hok h401
  have hte := handleTokenExpiration_failure store env.refreshOutcome r href hfail
  refine ⟨?_, ?_, ?_⟩
  · show (handleResponse store env.refreshOutcome env.firstResponse).2.1 = _
    rw [hresp, hte]
  · show (handleResponse store env.refreshOutcome env.firstResponse).2.2 = 1
    rw [hresp, hte]
  · refine ⟨{ message := orFalsy (dataMessage d) ("HTTP error! status: " ++ toString env.firstResponse.status),
              status := env.firstResponse.status, code := dataCode d }, ?_, h401, ?_, ?_⟩
    · show (handleResponse store env.refreshOutcome env.firstResponse).1 = _
      rw [hresp]
    · rw [handleApiError_type]
      show specStatusKindAmended env.firstResponse.status = _
      rw [h401]
      decide
    · apply shouldRetry_of_auth
      rw [handleApiError_type]
      show specStatusKindAmended env.firstResponse.status = _
      rw [h401]
      decide

/-- C4, witness at the spec's concrete scenario: refresh endpoint answers
401. -/
theorem refresh_failure_clears_store_auth_terminal_witness :
    (getMethod cexStore cexEnvRefreshFail).finalStore =
      { access_token := none, refresh_token := none, user := none } ∧
    (getMethod cexStore cexEnvRefreshFail).refreshCalls = 1 ∧
    ∃ e, (getMethod cexStore cexEnvRefreshFail).result = .error (.api e) ∧ e.status = 401 ∧
      (handleApiError 0 e).type = ErrorType.AUTH ∧
      shouldRetry (handleApiError 0 e) 0 = false :=
  refresh_failure_clears_store_auth_terminal cexStore cexEnvRefreshFail "R1"
    (.json { message := none, code := none }) 0 0 rfl rfl rfl rfl rfl

/-- C5, counterexample.  The claimed mapping sends any status outside
400/401/403/404/429/500-599 to UnknownError, but the code's default branch
sends every status of at least 500 to ServerError: at status 600 the code
disagrees with the claimed taxonomy. -/
theorem status600_breaks_spec_taxonomy :
    (handleApiError 0 { message := "", status := 600, code := none }).type ≠
      specStatusKind 600 := by
  decide

/-- C5, amended.  The classifier maps 400 to ValidationError, 401/403 to
AuthError, 404/429 and every status of at least 500 (not only 500-599) to
ServerError, any other status to UnknownError; a transport failure with no
response is a NetworkError. -/
theorem classifier_matches_amended_taxonomy :
    (∀ (now : Nat) (e : ApiError),
        (handleApiError now e).type = specStatusKindAmended e.status) ∧
    (∀ now : Nat, (handleNetworkError now).type = ErrorType.NETWORK) :=
  ⟨handleApiError_type, fun _ => rfl⟩

/-- C6, counterexample.  With the configured `queries.retry = 3`, a query
whose every attempt fails with a 400 error — an error the repository's own
`shouldRetry` deems non-retryable — is attempted 4 times, not exactly
once: react-query's numeric retry never consults the classification. -/
theorem validation_error_still_retried :
    (runQuery (fun _ => (.error err400 : Except AppError Unit)) 0 queriesRetry).2 ≠ 1 ∧
    (runQuery (fun _ => (.error err400 : Except AppError Unit)) 0 queriesRetry).2 = 4 ∧
    shouldRetry err400 0 = false := by
  decide

/-- C6, amended.  Under the configured `queries.retry = 3`, every query is
attempted at most `queriesRetry + 1 = 4` times, and a query whose attempts
all fail is attempted exactly `queriesRetry + 1` times regardless of how
its error is classified. -/
theorem queries_retry_bound_ignores_classification :
    (∀ (attempt : Nat → Except AppError Unit) (k : Nat),
        (runQuery attempt k queriesRetry).2 ≤ queriesRetry + 1) ∧
    (∀ e : AppError,
        (runQuery (fun _ => (.error e : Except AppError Unit)) 0 queriesRetry).2
          = queriesRetry + 1) :=
  ⟨fun attempt k => runQuery_le attempt k queriesRetry,
   fun e => runQuery_allFail e 0 queriesRetry⟩

/-- C7, counterexample.  A 200 response declaring JSON whose body does not
parse makes `handleResponse` propagate the raw parse rejection — not an
`ApiError`, let alone a ServerError — and the UI-level dispatch then
classifies it as UNKNOWN. -/
theorem unparsable_body_not_server_error :
    handleResponse cexStore (.ok "T2" none) cexMalformed =
      (.error (.jsonParse "Unexpected token in JSON"), cexStore, 0) ∧
    (handleError 0 (.jsonParse "Unexpected token in JSON")).type = ErrorType.UNKNOWN := by
  decide

/-- C7, amended.  For every response declaring a JSON content type whose
body fails to parse, `handleResponse` rejects with the raw parse error
(leaving storage untouched and making no refresh call), and no parse-error
message is ever classified as a ServerError by the error-handling hook. -/
theorem unparsable_json_propagates_unclassified (store : Storage) (o : RefreshOutcome)
    (resp : HttpResponse) (now : Nat)
    (_hok : resp.ok = true) (hct : resp.contentTypeJson = true)
    (hbad : resp.bodyJson = none) :
    handleResponse store o resp = (.error (.jsonParse "Unexpected token in JSON"), store, 0) ∧
    ∀ m, (handleError now (.jsonParse m)).type ≠ ErrorType.SERVER := by
  constructor
  · simp [handleResponse, readData, hct, hbad]
  · intro m
    by_cases hnet : isNetworkErrorRaw (.jsonParse m) = true
    · simp [handleError, hnet, handleNetworkError]
    · simp [handleError, hnet, handleGenericError]

/-- C7, witness for the amended theorem at the concrete malformed
response. -/
theorem unparsable_json_propagates_unclassified_witness :
    handleResponse cexStore (.ok "T2" none) cexMalformed =
      (.error (.jsonParse "Unexpected token in JSON"), cexStore, 0) ∧
    ∀ m, (handleError 7 (.jsonParse m)).type ≠ ErrorType.SERVER :=
  unparsable_json_propagates_unclassified cexStore (.ok "T2" none) cexMalformed 7 rfl rfl rfl

/-- C8, confirmed.  The headers built for a request carry
`Authorization: Bearer <accessToken>` exactly when an access token is
stored, and no `Authorization` header otherwise. -/
theorem auth_header_iff_access_token (store : Storage) :
    authHeaderValue (getAuthHeaders store) =
      Option.map (fun t => "Bearer " ++ t) store.access_token := by
  obtain ⟨a, _, _⟩ := store
  cases a <;> rfl

/-- C9, confirmed.  With the configured `mutations.retry = 1`, a mutation
is attempted at most `mutationsRetry + 1 = 2` times: it is never retried
more than once. -/
theorem mutations_at_most_one_retry :
    ∀ (attempt : Nat → Except AppError Unit) (k : Nat),
      (runQuery attempt k mutationsRetry).2 ≤ mutationsRetry + 1 :=
  fun attempt k => runQuery_le attempt k mutationsRetry

/-- C10, confirmed.  A 401 handled while no refresh token is stored makes
no refresh network call, leaves the stored credentials exactly as they
were, and still throws the original 401 error to the caller. -/
theorem no_refresh_token_no_refresh_call (store : Storage) (env : ServerEnv) (d : DataValue)
    (hnone : store.refresh_token = none)
    (hok : env.firstResponse.ok = false)
    (h401 : env.firstResponse.status = 401)
    (hbody : readData env.firstResponse = .ok d) :
    (getMethod store env).refreshCalls = 0 ∧
    (getMethod store env).finalStore = store ∧
    ∃ e, (getMethod store env).result = .error (.api e) ∧ e.status = 401 := by
  have hresp := handleResponse_failure store env.refreshOutcome env.firstResponse d hbody hok h401
  have hte := handleTokenExpiration_none store env.refreshOutcome hnone
  refine ⟨?_, ?_, ?_⟩
  · show (handleResponse store env.refreshOutcome env.firstResponse).2.2 = 0
    rw [hresp, hte]
  · show (handleResponse store env.refreshOutcome env.firstResponse).2.1 = store
    rw [hresp, hte]
  · refine ⟨{ message := orFalsy (dataMessage d) ("HTTP error! status: " ++ toString env.firstResponse.status),
              status := env.firstResponse.status, code := dataCode d }, ?_, h401⟩
    show (handleResponse store env.refreshOutcome env.firstResponse).1 = _
    rw [hresp]

/-- C10, witness at a store holding an access token but no refresh
token. -/
theorem no_refresh_token_no_refresh_call_witness :
    (getMethod cexNoRefreshStore cexEnvRefreshOk).refreshCalls = 0 ∧
    (getMethod cexNoRefreshStore cexEnvRefreshOk).finalStore = cexNoRefreshStore ∧
    ∃ e, (getMethod cexNoRefreshStore cexEnvRefreshOk).result = .error (.api e) ∧
      e.status = 401 :=
  no_refresh_token_no_refresh_call cexNoRefreshStore cexEnvRefreshOk
    (.json { message := none, code := none }) rfl rfl rfl rfl

end MintFlow
